import Mathlib

/-!
Verification of `src/modules/groq_inference.py` (class `GroqMultimodalProcessor`).

The module is embedded shallowly: the filesystem, the HTTP transport and the
JSON extraction steps are an explicit environment of functions; Python
exceptions are `Except.error` values carrying the exception message together
with the remote calls already attempted; each public operation returns
`Except.error` exactly when the Python code would let an exception escape to
the caller.  Remote calls are recorded in a trace so that "no network call is
made" is a provable statement.
-/

namespace GroqInference

/-- Python `str.split(sep)` for a one-character separator, on character lists:
`"a.b".split('.') == ["a","b"]`, `"".split('.') == [""]`. -/
def splitOnChar (sep : Char) : List Char → List (List Char)
  | [] => [[]]
  | c :: rest =>
    let r := splitOnChar sep rest
    if c = sep then [] :: r
    else (c :: r.headD []) :: r.tail

/-- Python `lst[-1]` on a list of segments (total, defaulting to `[]`;
`splitOnChar` never returns an empty list, so the default is never used). -/
def pyLast : List (List Char) → List Char
  | [] => []
  | [x] => x
  | _ :: y :: ys => pyLast (y :: ys)

/-- The base64 alphabet used by `base64.b64encode`. -/
def b64Alphabet : List Char :=
  "ABCDEFGHIJKLMNOPQRSTUVWXYZabcdefghijklmnopqrstuvwxyz0123456789+/".toList

/-- Character of the base64 alphabet at a 6-bit index. -/
def b64Char (n : Nat) : Char := b64Alphabet.getD n 'A'

/-- Standard base64 of a byte list (3 bytes to 4 characters, `=`-padded),
embedding Python `base64.b64encode(data).decode('utf-8')`. -/
def b64encodeList : List Nat → List Char
  | [] => []
  | [a] => [b64Char (a / 4), b64Char (a % 4 * 16), '=', '=']
  | [a, b] => [b64Char (a / 4), b64Char (a % 4 * 16 + b / 16), b64Char (b % 16 * 4), '=']
  | a :: b :: c :: rest =>
      b64Char (a / 4) :: b64Char (a % 4 * 16 + b / 16) :: b64Char (b % 16 * 4 + c / 64) ::
        b64Char (c % 64) :: b64encodeList rest

/-- Base64 of a byte list, as a string. -/
def b64encode (bs : List Nat) : String := String.mk (b64encodeList bs)

/-- ASCII whitespace as recognized by Python `str.strip()`. -/
def isPySpace (c : Char) : Bool :=
  c == ' ' || c == '\t' || c == '\n' || c == '\r' || c == '\x0b' || c == '\x0c'

/-- Python `str.strip()`: remove leading and trailing whitespace. -/
def pyStrip (s : String) : String :=
  String.mk (((s.toList.dropWhile isPySpace).reverse.dropWhile isPySpace).reverse)

/-- Python truthiness of an optional string (`None` and `""` are falsy). -/
def pyTruthy : Option String → Bool
  | none => false
  | some s => !(s == "")

/-- Python `os.path.basename` on a POSIX path: the part after the last `/`. -/
def basename (p : String) : String :=
  String.mk (pyLast (splitOnChar '/' p.toList))

/-- Embeds `path.lower().split('.')[-1]`: the last dot-segment of the
lowercased path. -/
def lastExt (p : String) : String :=
  String.mk (pyLast (splitOnChar '.' (p.toList.map Char.toLower)))

/-- The MIME image subtype used in the vision data URI
(lines 38-40 of the source: lowercased extension, `jpg` mapped to `jpeg`). -/
def imageFormat (p : String) : String :=
  let e := lastExt p
  if e = "jpg" then "jpeg" else e

/-- The MIME type attached to the uploaded audio file, from the already
lowercased extension (lines 103-110 of the source). -/
def audioMime (fmt : String) : String :=
  if fmt = "mp3" then "audio/mpeg"
  else if fmt = "wav" then "audio/wav"
  else if fmt = "ogg" then "audio/ogg"
  else "audio/" ++ fmt

/-- The MIME type for an audio path: `audioMime` of `lastExt`. -/
def audioMimeOf (p : String) : String := audioMime (lastExt p)

/-- Message content of a `/chat/completions` request: a plain string, or the
vision pair of an instruction text and an embedded data-URI image. -/
inductive ChatContent where
  | text (s : String)
  | visionParts (instruction : String) (dataUri : String)
deriving DecidableEq

/-- JSON body of a `/chat/completions` request (temperature is recorded in
tenths to stay in exact arithmetic: the source uses 0.3 and 0.7). -/
structure ChatPayload where
  model : String
  content : ChatContent
  maxTokens : Nat
  temperatureTenths : Nat
deriving DecidableEq

/-- A `/chat/completions` HTTP response as the code observes it:
status code, raw body text, and the outcome of
`response.json()["choices"][0]["message"]["content"]`
(`Except.error` when that extraction would raise). -/
structure ChatResp where
  statusCode : Nat
  bodyText : String
  contentExtract : Except String String

/-- An `/audio/transcriptions` HTTP response as the code observes it:
status code, raw body text, and the outcome of `response.json().get("text")`
(`Except.error` when the body does not parse as a JSON object,
`Except.ok none` when the `text` field is absent). -/
structure TransResp where
  statusCode : Nat
  bodyText : String
  textField : Except String (Option String)

/-- A remote HTTP call attempted by the module, with its payload. -/
inductive RemoteCall where
  | chat (payload : ChatPayload)
  | transcription (filename : String) (mime : String) (model : String)
      (responseFormat : String) (data : List Nat)
deriving DecidableEq

/-- The environment: outcomes of filesystem reads, HTTP posts and local image
decoding.  `Except.error msg` is a raised Python exception with message
`msg`; `decodeImage` returns the `(width, height, mode)` of `PIL.Image.open`
or `none` when it fails. -/
structure Env where
  pathExists : String → Bool
  readBytes : String → Except String (List Nat)
  chatPost : ChatPayload → Except String ChatResp
  transcribePost : String → String → List Nat → Except String TransResp
  decodeImage : String → Option (Nat × Nat × String)

/-- Result of an operation: `Except.ok (s, calls)` is a normal return of the
string `s` after attempting the remote calls `calls`; `Except.error (e, calls)`
is an exception with message `e` escaping to the caller. -/
abbrev PyResult := Except (String × List RemoteCall) (String × List RemoteCall)

/-- Embeds `encode_image` (lines 17-24): read the file and base64-encode it,
returning `none` (Python `None`) when opening or reading raises. -/
def encode_image (env : Env) (imagePath : String) : Option String :=
  match env.readBytes imagePath with
  | .ok bs => some (b64encode bs)
  | .error _ => none

/-- The vision request payload built at lines 43-64 of the source. -/
def visionPayload (format b64 : String) : ChatPayload :=
  ⟨"meta-llama/llama-4-scout-17b-16e-instruct",
   ChatContent.visionParts "Please describe this image in detail. What do you see?"
     ("data:image/" ++ format ++ ";base64," ++ b64),
   500, 3⟩

/-- Body of `generate_image_caption` (lines 28-86), inside the outer `try`. -/
def generate_image_caption_body (env : Env) (imgPath : Option String) : PyResult :=
  if pyTruthy imgPath = false then .ok ("No image provided", [])
  else
    let p := imgPath.getD ""
    if env.pathExists p = false then .ok ("No image provided", [])
    else
      match encode_image env p with
      | none => .ok ("Error encoding image", [])
      | some b64 =>
        if b64 = "" then .ok ("Error encoding image", [])
        else
          let payload := visionPayload (imageFormat p) b64
          match env.chatPost payload with
          | .error e => .error (e, [RemoteCall.chat payload])
          | .ok resp =>
            if resp.statusCode = 200 then
              match resp.contentExtract with
              | .error e => .error (e, [RemoteCall.chat payload])
              | .ok content => .ok (content, [RemoteCall.chat payload])
            else
              match env.decodeImage p with
              | some (w, h, mode) =>
                .ok ("Image uploaded: " ++ basename p ++ " (Size: " ++ toString w ++ "x" ++
                  toString h ++ ", Mode: " ++ mode ++ "). Vision analysis temporarily unavailable.",
                  [RemoteCall.chat payload])
              | none =>
                .ok ("Image uploaded: " ++ basename p ++
                  ". Vision analysis temporarily unavailable.", [RemoteCall.chat payload])

/-- Embeds `generate_image_caption` (lines 26-90): the body wrapped in
`try ... except Exception as e: return f"Error processing image: {str(e)}"`. -/
def generate_image_caption (env : Env) (imgPath : Option String) : PyResult :=
  match generate_image_caption_body env imgPath with
  | .ok r => .ok r
  | .error (e, calls) => .ok ("Error processing image: " ++ e, calls)

/-- Body of `speech_to_text` (lines 94-127), inside the outer `try`. -/
def speech_to_text_body (env : Env) (audioPath : Option String) : PyResult :=
  if pyTruthy audioPath = false then .ok ("No audio provided", [])
  else
    let p := audioPath.getD ""
    if env.pathExists p = false then .ok ("No audio provided", [])
    else
      let mime := audioMimeOf p
      match env.readBytes p with
      | .error e => .error (e, [])
      | .ok data =>
        let call := RemoteCall.transcription (basename p) mime "whisper-large-v3" "json" data
        match env.transcribePost (basename p) mime data with
        | .error e => .error (e, [call])
        | .ok resp =>
          if resp.statusCode = 200 then
            match resp.textField with
            | .error e => .error (e, [call])
            | .ok t => .ok (t.getD "No text transcribed", [call])
          else
            .ok ("Speech-to-text error: " ++ toString resp.statusCode, [call])

/-- Embeds `speech_to_text` (lines 92-131): the body wrapped in
`try ... except Exception as e: return f"Error processing audio: {str(e)}"`. -/
def speech_to_text (env : Env) (audioPath : Option String) : PyResult :=
  match speech_to_text_body env audioPath with
  | .ok r => .ok r
  | .error (e, calls) => .ok ("Error processing audio: " ++ e, calls)

/-- The default model of `query_groq_llm` (line 133). -/
def defaultModel : String := "llama-3.3-70b-versatile"

/-- The completion request payload built at lines 136-146 of the source. -/
def completionPayload (prompt model : String) : ChatPayload :=
  ⟨model, ChatContent.text prompt, 1000, 7⟩

/-- Body of `query_groq_llm` (lines 135-159), inside the outer `try`. -/
def query_groq_llm_body (env : Env) (prompt model : String) : PyResult :=
  let payload := completionPayload prompt model
  match env.chatPost payload with
  | .error e => .error (e, [RemoteCall.chat payload])
  | .ok resp =>
    if resp.statusCode = 200 then
      match resp.contentExtract with
      | .error e => .error (e, [RemoteCall.chat payload])
      | .ok content => .ok (content, [RemoteCall.chat payload])
    else
      .ok ("LLM error: " ++ toString resp.statusCode, [RemoteCall.chat payload])

/-- Embeds `query_groq_llm` (lines 133-163): the body wrapped in
`try ... except Exception as e: return f"Error with LLM: {str(e)}"`. -/
def query_groq_llm (env : Env) (prompt model : String) : PyResult :=
  match query_groq_llm_body env prompt model with
  | .ok r => .ok r
  | .error (e, calls) => .ok ("Error with LLM: " ++ e, calls)

/-- The fixed trailing instruction appended to the combined prompt
(line 191 of the source). -/
def trailingInstruction : String :=
  "\n\nPlease provide a helpful response based on the above information:"

/-- Embeds `multimodal_chat` (lines 165-196).  There is no `try` here, so an
exception in a sub-call would propagate (the sub-calls never raise, but the
embedding keeps the propagation faithful). -/
def multimodal_chat (env : Env) (userText userImagePath userAudioPath : Option String) :
    PyResult :=
  let imgStep : Except (String × List RemoteCall) (List String × List RemoteCall) :=
    if pyTruthy userImagePath then
      match generate_image_caption env userImagePath with
      | .ok (caption, cs) => .ok (["Image: " ++ caption], cs)
      | .error e => .error e
    else .ok ([], [])
  match imgStep with
  | .error e => .error e
  | .ok (parts1, calls1) =>
    let audStep : Except (String × List RemoteCall) (List String × List RemoteCall) :=
      if pyTruthy userAudioPath then
        match speech_to_text env userAudioPath with
        | .ok (t, cs) => .ok (["Audio: " ++ t], cs)
        | .error e => .error e
      else .ok ([], [])
    match audStep with
    | .error (e, cs) => .error (e, calls1 ++ cs)
    | .ok (parts2, calls2) =>
      let textParts : List String :=
        match userText with
        | some t => if t ≠ "" ∧ pyStrip t ≠ "" then ["User typed: " ++ t] else []
        | none => []
      let contextParts := parts1 ++ parts2 ++ textParts
      if contextParts = [] then
        .ok ("Please provide some input (text, image, or audio)!", calls1 ++ calls2)
      else
        let combinedPrompt := String.intercalate "\n" contextParts ++ trailingInstruction
        match query_groq_llm env combinedPrompt defaultModel with
        | .error (e, cs) => .error (e, calls1 ++ calls2 ++ cs)
        | .ok (resp, cs) => .ok (resp, calls1 ++ calls2 ++ cs)

/-- A test environment: no file exists and every HTTP request raises a
connection error. -/
def emptyEnv : Env :=
  ⟨fun _ => false, fun _ => .error "No such file or directory",
   fun _ => .error "ConnectionError", fun _ _ _ => .error "ConnectionError", fun _ => none⟩

/-- A test environment whose chat endpoint always answers 200 with content
"hello"; no file exists. -/
def helloEnv : Env :=
  ⟨fun _ => false, fun _ => .error "No such file or directory",
   fun _ => .ok ⟨200, "", .ok "hello"⟩, fun _ _ _ => .error "ConnectionError", fun _ => none⟩

/-- A test environment with one empty (zero-byte) image file "empty.png". -/
def emptyFileEnv : Env :=
  ⟨fun p => p == "empty.png",
   fun p => if p == "empty.png" then .ok [] else .error "No such file or directory",
   fun _ => .error "ConnectionError", fun _ _ _ => .error "ConnectionError", fun _ => none⟩

/-- A test environment with one image file "pic.png" of bytes [1, 2, 3],
whose vision endpoint answers 500 and whose local decoder reports a 10x20
RGB image. -/
def visionDownEnv : Env :=
  ⟨fun p => p == "pic.png",
   fun p => if p == "pic.png" then .ok [1, 2, 3] else .error "No such file or directory",
   fun _ => .ok ⟨500, "Internal Server Error", .error "KeyError"⟩,
   fun _ _ _ => .error "ConnectionError", fun _ => some (10, 20, "RGB")⟩

/-- Like `visionDownEnv` but the local decoder fails as well. -/
def visionDownNoDecodeEnv : Env :=
  ⟨fun p => p == "pic.png",
   fun p => if p == "pic.png" then .ok [1, 2, 3] else .error "No such file or directory",
   fun _ => .ok ⟨500, "Internal Server Error", .error "KeyError"⟩,
   fun _ _ _ => .error "ConnectionError", fun _ => none⟩

/-- A test environment with one audio file "talk.mp3" of bytes [9, 9] whose
transcription endpoint answers 200 with text "hi there". -/
def audioOkEnv : Env :=
  ⟨fun p => p == "talk.mp3",
   fun p => if p == "talk.mp3" then .ok [9, 9] else .error "No such file or directory",
   fun _ => .error "ConnectionError",
   fun _ _ _ => .ok ⟨200, "", .ok (some "hi there")⟩, fun _ => none⟩

/-- Like `audioOkEnv` but the 200 response carries no "text" field. -/
def audioNoTextEnv : Env :=
  ⟨fun p => p == "talk.mp3",
   fun p => if p == "talk.mp3" then .ok [9, 9] else .error "No such file or directory",
   fun _ => .error "ConnectionError",
   fun _ _ _ => .ok ⟨200, "", .ok none⟩, fun _ => none⟩

/-- Like `audioOkEnv` but the transcription endpoint answers 404. -/
def audioErrEnv : Env :=
  ⟨fun p => p == "talk.mp3",
   fun p => if p == "talk.mp3" then .ok [9, 9] else .error "No such file or directory",
   fun _ => .error "ConnectionError",
   fun _ _ _ => .ok ⟨404, "Not Found", .error "KeyError"⟩, fun _ => none⟩

/-! Helper lemmas about `splitOnChar` and `pyLast`. -/

theorem splitOnChar_ne_nil (sep : Char) (cs : List Char) : splitOnChar sep cs ≠ [] := by
  cases cs with
  | nil => simp [splitOnChar]
  | cons c rest =>
    simp only [splitOnChar]
    by_cases h : c = sep <;> simp [h]

theorem pyLast_cons_of_ne_nil (a : List Char) (l : List (List Char)) (h : l ≠ []) :
    pyLast (a :: l) = pyLast l := by
  cases l with
  | nil => exact absurd rfl h
  | cons x xs => rfl

theorem two_le_length_splitOnChar (sep : Char) (cs : List Char) (h : sep ∈ cs) :
    2 ≤ (splitOnChar sep cs).length := by
  induction cs with
  | nil => simp at h
  | cons c rest ih =>
    simp only [splitOnChar]
    by_cases hc : c = sep
    · rw [if_pos hc]
      have := List.length_pos_of_ne_nil (splitOnChar_ne_nil sep rest)
      simp only [List.length_cons]
      omega
    · have hmem : sep ∈ rest := by
        rcases List.mem_cons.mp h with h1 | h1
        · exact absurd h1.symm hc
        · exact h1
      have h2 := ih hmem
      rw [if_neg hc]
      simp only [List.length_cons]
      have hlen : (splitOnChar sep rest).tail.length = (splitOnChar sep rest).length - 1 :=
        List.length_tail _
      omega

theorem splitOnChar_of_not_mem (sep : Char) (cs : List Char) (h : sep ∉ cs) :
    splitOnChar sep cs = [cs] := by
  induction cs with
  | nil => rfl
  | cons c rest ih =>
    have hc : c ≠ sep := fun e => h (e ▸ List.mem_cons_self c rest)
    have hrest : sep ∉ rest := fun e => h (List.mem_cons_of_mem c e)
    simp [splitOnChar, if_neg hc, ih hrest]

theorem pyLast_splitOnChar_append (sep : Char) (xs ys : List Char) :
    pyLast (splitOnChar sep (xs ++ sep :: ys)) = pyLast (splitOnChar sep ys) := by
  induction xs with
  | nil =>
    simp only [List.nil_append, splitOnChar, if_pos rfl]
    exact pyLast_cons_of_ne_nil _ _ (splitOnChar_ne_nil sep ys)
  | cons c xs ih =>
    simp only [List.cons_append, splitOnChar]
    by_cases hc : c = sep
    · rw [if_pos hc]
      exact (pyLast_cons_of_ne_nil [] (splitOnChar sep (xs ++ sep :: ys))
        (splitOnChar_ne_nil sep (xs ++ sep :: ys))).trans ih
    · rw [if_neg hc]
      have hmem : sep ∈ xs ++ sep :: ys := List.mem_append_right xs (List.mem_cons_self sep ys)
      have h2 := two_le_length_splitOnChar sep (xs ++ sep :: ys) hmem
      rcases hsplit : splitOnChar sep (xs ++ sep :: ys) with _ | ⟨r0, rtail⟩
      · exact absurd hsplit (splitOnChar_ne_nil sep _)
      · have htail : rtail ≠ [] := by
          intro e
          rw [hsplit, e] at h2
          simp at h2
        rw [hsplit] at ih
        calc pyLast ((c :: (r0 :: rtail).headD []) :: (r0 :: rtail).tail)
            = pyLast rtail := by
              simp only [List.headD_cons, List.tail_cons]
              exact pyLast_cons_of_ne_nil _ _ htail
          _ = pyLast (r0 :: rtail) := (pyLast_cons_of_ne_nil _ _ htail).symm
          _ = pyLast (splitOnChar sep ys) := ih

theorem lastExt_append_ext (stem ext : List Char) (h : '.' ∉ ext.map Char.toLower) :
    lastExt (String.mk (stem ++ '.' :: ext)) = String.mk (ext.map Char.toLower) := by
  have hdot : Char.toLower '.' = '.' := rfl
  have hmap : (stem ++ '.' :: ext).map Char.toLower =
      stem.map Char.toLower ++ '.' :: ext.map Char.toLower := by
    simp [List.map_append, hdot]
  simp only [lastExt]
  have htl : (String.mk (stem ++ '.' :: ext)).toList = stem ++ '.' :: ext := rfl
  rw [htl, hmap, pyLast_splitOnChar_append, splitOnChar_of_not_mem _ _ h]
  rfl

/-! Totality lemmas: each embedded operation catches every exception. -/

theorem generate_image_caption_isOk (env : Env) (imgPath : Option String) :
    ∃ r, generate_image_caption env imgPath = .ok r := by
  unfold generate_image_caption
  rcases hbody : generate_image_caption_body env imgPath with ⟨e, calls⟩ | r
  · exact ⟨_, rfl⟩
  · exact ⟨_, rfl⟩

theorem speech_to_text_isOk (env : Env) (audioPath : Option String) :
    ∃ r, speech_to_text env audioPath = .ok r := by
  unfold speech_to_text
  rcases hbody : speech_to_text_body env audioPath with ⟨e, calls⟩ | r
  · exact ⟨_, rfl⟩
  · exact ⟨_, rfl⟩

theorem query_groq_llm_spec (env : Env) (prompt model : String) :
    ∃ s, query_groq_llm env prompt model =
      .ok (s, [RemoteCall.chat (completionPayload prompt model)]) := by
  unfold query_groq_llm query_groq_llm_body
  rcases hpost : env.chatPost (completionPayload prompt model) with e | resp
  · exact ⟨"Error with LLM: " ++ e, by simp [hpost]⟩
  · by_cases h : resp.statusCode = 200
    · rcases hc : resp.contentExtract with e | content
      · exact ⟨"Error with LLM: " ++ e, by simp [hpost, h, hc]⟩
      · exact ⟨content, by simp [hpost, h, hc]⟩
    · exact ⟨"LLM error: " ++ toString resp.statusCode, by simp [hpost, h]⟩

theorem multimodal_chat_unfold (env : Env) (t i a : Option String) (cap sp : String)
    (cs1 cs2 : List RemoteCall)
    (hcap : generate_image_caption env i = .ok (cap, cs1))
    (hsp : speech_to_text env a = .ok (sp, cs2)) :
    multimodal_chat env t i a =
      (let parts : List String := (if pyTruthy i then ["Image: " ++ cap] else []) ++
         (if pyTruthy a then ["Audio: " ++ sp] else []) ++
         (match t with
          | some s => if s ≠ "" ∧ pyStrip s ≠ "" then ["User typed: " ++ s] else []
          | none => [])
       let calls : List RemoteCall :=
         (if pyTruthy i then cs1 else []) ++ (if pyTruthy a then cs2 else [])
       if parts = [] then .ok ("Please provide some input (text, image, or audio)!", calls)
       else
         match query_groq_llm env (String.intercalate "\n" parts ++ trailingInstruction)
             defaultModel with
         | .error (e, cs) => .error (e, calls ++ cs)
         | .ok (resp, cs) => .ok (resp, calls ++ cs)) := by
  unfold multimodal_chat
  by_cases hi : pyTruthy i <;> by_cases ha : pyTruthy a <;>
    simp [hi, ha, hcap, hsp, List.append_assoc]

theorem multimodal_chat_isOk (env : Env) (t i a : Option String) :
    ∃ r, multimodal_chat env t i a = .ok r := by
  obtain ⟨⟨cap, cs1⟩, hcap⟩ := generate_image_caption_isOk env i
  obtain ⟨⟨sp, cs2⟩, hsp⟩ := speech_to_text_isOk env a
  rw [multimodal_chat_unfold env t i a cap sp cs1 cs2 hcap hsp]
  set parts : List String := (if pyTruthy i then ["Image: " ++ cap] else []) ++
    (if pyTruthy a then ["Audio: " ++ sp] else []) ++
    (match t with
     | some s => if s ≠ "" ∧ pyStrip s ≠ "" then ["User typed: " ++ s] else []
     | none => []) with hparts
  by_cases hp : parts = []
  · exact ⟨_, by rw [if_pos hp]⟩
  · obtain ⟨s, hq⟩ := query_groq_llm_spec env
      (String.intercalate "\n" parts ++ trailingInstruction) defaultModel
    exact ⟨_, by rw [if_neg hp, hq]⟩

theorem stringMk_eq_iff (l : List Char) (s : String) : String.mk l = s ↔ l = s.toList := by
  constructor
  · intro h
    subst h
    rfl
  · intro h
    cases s with
    | mk data => exact congrArg String.mk h

theorem intercalate_singleton (sep x : String) : String.intercalate sep [x] = x := rfl

theorem query_groq_llm_200 (env : Env) (prompt model content : String) (resp : ChatResp)
    (hpost : env.chatPost (completionPayload prompt model) = .ok resp)
    (h200 : resp.statusCode = 200) (hc : resp.contentExtract = .ok content) :
    query_groq_llm env prompt model =
      .ok (content, [RemoteCall.chat (completionPayload prompt model)]) := by
  unfold query_groq_llm query_groq_llm_body
  simp [hpost, h200, hc]

/-- C3: every public operation is total from the caller's perspective: for
every environment (covering every outcome of file reads, the HTTP transport
and JSON extraction) and every input, `generate_image_caption`,
`speech_to_text`, `query_groq_llm` and `multimodal_chat` return a string and
never let an exception (`Except.error`) escape to the caller. -/
theorem claim_C3_totality (env : Env) (t i a : Option String) (prompt model : String) :
    (∃ r, generate_image_caption env i = .ok r) ∧
    (∃ r, speech_to_text env a = .ok r) ∧
    (∃ r, query_groq_llm env prompt model = .ok r) ∧
    (∃ r, multimodal_chat env t i a = .ok r) := by
  refine ⟨generate_image_caption_isOk env i, speech_to_text_isOk env a, ?_,
    multimodal_chat_isOk env t i a⟩
  obtain ⟨s, h⟩ := query_groq_llm_spec env prompt model
  exact ⟨_, h⟩

/-- C2: when the image path and the audio path are absent or empty and the
text is absent, empty, or blank after trimming, `multimodal_chat` returns
exactly "Please provide some input (text, image, or audio)!" and attempts no
remote call (the trace of remote calls is empty). -/
theorem claim_C2_no_input (env : Env) (t i a : Option String)
    (hi : pyTruthy i = false) (ha : pyTruthy a = false)
    (ht : ∀ s, t = some s → s = "" ∨ pyStrip s = "") :
    multimodal_chat env t i a =
      .ok ("Please provide some input (text, image, or audio)!", []) := by
  obtain ⟨⟨cap, cs1⟩, hcap⟩ := generate_image_caption_isOk env i
  obtain ⟨⟨sp, cs2⟩, hsp⟩ := speech_to_text_isOk env a
  rw [multimodal_chat_unfold env t i a cap sp cs1 cs2 hcap hsp]
  have htp : (match t with
      | some s => if s ≠ "" ∧ pyStrip s ≠ "" then ["User typed: " ++ s] else []
      | none => ([] : List String)) = [] := by
    cases t with
    | none => rfl
    | some s =>
      rcases ht s rfl with h | h <;> simp [h]
  simp [hi, ha, htp]

theorem claim_C2_witness :
    multimodal_chat emptyEnv (some "   ") none none =
      .ok ("Please provide some input (text, image, or audio)!", []) := by
  apply claim_C2_no_input
  · rfl
  · rfl
  · intro s hs
    injection hs with h
    subst h
    exact Or.inr (by decide)

/-- C4: an absent/empty or non-existing image path makes
`generate_image_caption` return exactly "No image provided", and an
absent/empty or non-existing audio path makes `speech_to_text` return exactly
"No audio provided"; in both cases no network call is attempted. -/
theorem claim_C4_missing_media (env : Env) (ip ap : Option String)
    (hip : pyTruthy ip = false ∨ env.pathExists (ip.getD "") = false)
    (hap : pyTruthy ap = false ∨ env.pathExists (ap.getD "") = false) :
    generate_image_caption env ip = .ok ("No image provided", []) ∧
    speech_to_text env ap = .ok ("No audio provided", []) := by
  constructor
  · unfold generate_image_caption generate_image_caption_body
    rcases hip with h | h
    · simp [h]
    · by_cases h2 : pyTruthy ip = false
      · simp [h2]
      · simp [h2, h]
  · unfold speech_to_text speech_to_text_body
    rcases hap with h | h
    · simp [h]
    · by_cases h2 : pyTruthy ap = false
      · simp [h2]
      · simp [h2, h]

theorem claim_C4_witness :
    generate_image_caption emptyEnv (some "ghost.png") = .ok ("No image provided", []) ∧
    speech_to_text emptyEnv none = .ok ("No audio provided", []) :=
  claim_C4_missing_media emptyEnv (some "ghost.png") none (Or.inr rfl) (Or.inl rfl)

/-- C10: for an existing image file with empty (zero-byte) content,
`encode_image` succeeds and returns the empty string, yet
`generate_image_caption` treats this falsy value as an encoding failure and
returns exactly "Error encoding image" without any network call. -/
theorem claim_C10_empty_file (env : Env) (p : String)
    (hp : p ≠ "") (hex : env.pathExists p = true) (hread : env.readBytes p = .ok []) :
    encode_image env p = some "" ∧
    generate_image_caption env (some p) = .ok ("Error encoding image", []) := by
  have henc : encode_image env p = some "" := by
    unfold encode_image
    rw [hread]
    rfl
  refine ⟨henc, ?_⟩
  unfold generate_image_caption generate_image_caption_body
  have htr : pyTruthy (some p) = true := by simp [pyTruthy, hp]
  simp [htr, hex, henc]

theorem claim_C10_witness :
    encode_image emptyFileEnv "empty.png" = some "" ∧
    generate_image_caption emptyFileEnv (some "empty.png") =
      .ok ("Error encoding image", []) :=
  claim_C10_empty_file emptyFileEnv "empty.png" (by decide) rfl rfl

theorem multimodal_chat_text_only (env : Env) (s : String)
    (hs : s ≠ "" ∧ pyStrip s ≠ "") :
    multimodal_chat env (some s) none none =
      query_groq_llm env (("User typed: " ++ s) ++ trailingInstruction) defaultModel := by
  obtain ⟨⟨cap, cs1⟩, hcap⟩ := generate_image_caption_isOk env none
  obtain ⟨⟨sp, cs2⟩, hsp⟩ := speech_to_text_isOk env none
  rw [multimodal_chat_unfold env (some s) none none cap sp cs1 cs2 hcap hsp]
  have hfalse : pyTruthy none = false := rfl
  simp only [hfalse, Bool.false_eq_true, if_false, List.nil_append, if_pos hs,
    List.append_nil]
  rw [if_neg (by simp), intercalate_singleton]
  rcases hq : query_groq_llm env (("User typed: " ++ s) ++ trailingInstruction)
      defaultModel with ⟨e, cs⟩ | ⟨r, cs⟩ <;> simp

/-- C1: for `multimodal_chat` called with text "hi" and no image or audio
path, the combined prompt passed to the completion endpoint is exactly
"User typed: hi\n\nPlease provide a helpful response based on the above
information:", `multimodal_chat` returns `query_groq_llm`'s result verbatim,
and in particular returns "hello" when the completion response is 200 with
content "hello". -/
theorem claim_C1_text_only (env : Env) :
    multimodal_chat env (some "hi") none none =
      query_groq_llm env
        "User typed: hi\n\nPlease provide a helpful response based on the above information:"
        defaultModel ∧
    (∀ resp : ChatResp,
      env.chatPost (completionPayload
          "User typed: hi\n\nPlease provide a helpful response based on the above information:"
          defaultModel) = .ok resp →
      resp.statusCode = 200 → resp.contentExtract = .ok "hello" →
      multimodal_chat env (some "hi") none none =
        .ok ("hello",
          [RemoteCall.chat (completionPayload
            "User typed: hi\n\nPlease provide a helpful response based on the above information:"
            defaultModel)])) := by
  have hprompt : ("User typed: " ++ "hi") ++ trailingInstruction =
      "User typed: hi\n\nPlease provide a helpful response based on the above information:" := by
    decide
  have hmain := multimodal_chat_text_only env "hi" ⟨by decide, by decide⟩
  rw [hprompt] at hmain
  refine ⟨hmain, fun resp hpost h200 hc => ?_⟩
  rw [hmain]
  exact query_groq_llm_200 env _ defaultModel "hello" resp hpost h200 hc

theorem claim_C1_witness :
    multimodal_chat helloEnv (some "hi") none none =
      .ok ("hello",
        [RemoteCall.chat (completionPayload
          "User typed: hi\n\nPlease provide a helpful response based on the above information:"
          defaultModel)]) :=
  (claim_C1_text_only helloEnv).2 ⟨200, "", .ok "hello"⟩ rfl rfl rfl

/-- C5: for an existing image path, when the vision request comes back with a
non-200 status, `generate_image_caption` falls back to local metadata:
"Image uploaded: <basename> (Size: <w>x<h>, Mode: <mode>). Vision analysis
temporarily unavailable." when the local decoder can open the file, and
"Image uploaded: <basename>. Vision analysis temporarily unavailable." when
local decoding fails too. -/
theorem claim_C5_vision_fallback (env : Env) (p : String) (bs : List Nat) (resp : ChatResp)
    (hp : p ≠ "") (hex : env.pathExists p = true)
    (hread : env.readBytes p = .ok bs) (hb64 : b64encode bs ≠ "")
    (hpost : env.chatPost (visionPayload (imageFormat p) (b64encode bs)) = .ok resp)
    (hstatus : resp.statusCode ≠ 200) :
    (∀ w h mode, env.decodeImage p = some (w, h, mode) →
      generate_image_caption env (some p) =
        .ok ("Image uploaded: " ++ basename p ++ " (Size: " ++ toString w ++ "x" ++
          toString h ++ ", Mode: " ++ mode ++ "). Vision analysis temporarily unavailable.",
          [RemoteCall.chat (visionPayload (imageFormat p) (b64encode bs))])) ∧
    (env.decodeImage p = none →
      generate_image_caption env (some p) =
        .ok ("Image uploaded: " ++ basename p ++ ". Vision analysis temporarily unavailable.",
          [RemoteCall.chat (visionPayload (imageFormat p) (b64encode bs))])) := by
  have htr : pyTruthy (some p) = true := by simp [pyTruthy, hp]
  have henc : encode_image env p = some (b64encode bs) := by
    unfold encode_image
    rw [hread]
  constructor
  · intro w h mode hdec
    unfold generate_image_caption generate_image_caption_body
    simp [htr, hex, henc, hb64, hpost, hstatus, hdec]
  · intro hdec
    unfold generate_image_caption generate_image_caption_body
    simp [htr, hex, henc, hb64, hpost, hstatus, hdec]

theorem claim_C5_witness :
    generate_image_caption visionDownEnv (some "pic.png") =
      .ok ("Image uploaded: pic.png (Size: 10x20, Mode: RGB). Vision analysis temporarily unavailable.",
        [RemoteCall.chat (visionPayload (imageFormat "pic.png") (b64encode [1, 2, 3]))]) ∧
    generate_image_caption visionDownNoDecodeEnv (some "pic.png") =
      .ok ("Image uploaded: pic.png. Vision analysis temporarily unavailable.",
        [RemoteCall.chat (visionPayload (imageFormat "pic.png") (b64encode [1, 2, 3]))]) := by
  constructor
  · have h := (claim_C5_vision_fallback visionDownEnv "pic.png" [1, 2, 3]
      ⟨500, "Internal Server Error", .error "KeyError"⟩ (by decide) rfl rfl (by decide)
      rfl (by decide)).1 10 20 "RGB" rfl
    simpa using h
  · have h := (claim_C5_vision_fallback visionDownNoDecodeEnv "pic.png" [1, 2, 3]
      ⟨500, "Internal Server Error", .error "KeyError"⟩ (by decide) rfl rfl (by decide)
      rfl (by decide)).2 rfl
    simpa using h

/-- C6: for an existing audio path, `speech_to_text` maps the transcription
response as follows: status 200 with a "text" field gives that field's value;
status 200 without a "text" field gives exactly "No text transcribed"; any
non-200 status gives exactly "Speech-to-text error: <status code>". -/
theorem claim_C6_transcription_mapping (env : Env) (p : String) (bs : List Nat)
    (resp : TransResp) (hp : p ≠ "") (hex : env.pathExists p = true)
    (hread : env.readBytes p = .ok bs)
    (hpost : env.transcribePost (basename p) (audioMimeOf p) bs = .ok resp) :
    (∀ s, resp.statusCode = 200 → resp.textField = .ok (some s) →
      speech_to_text env (some p) = .ok (s,
        [RemoteCall.transcription (basename p) (audioMimeOf p) "whisper-large-v3" "json" bs])) ∧
    (resp.statusCode = 200 → resp.textField = .ok none →
      speech_to_text env (some p) = .ok ("No text transcribed",
        [RemoteCall.transcription (basename p) (audioMimeOf p) "whisper-large-v3" "json" bs])) ∧
    (resp.statusCode ≠ 200 →
      speech_to_text env (some p) = .ok ("Speech-to-text error: " ++ toString resp.statusCode,
        [RemoteCall.transcription (basename p) (audioMimeOf p) "whisper-large-v3" "json" bs])) := by
  have htr : pyTruthy (some p) = true := by simp [pyTruthy, hp]
  refine ⟨fun s h200 htext => ?_, fun h200 htext => ?_, fun hne => ?_⟩ <;>
  · unfold speech_to_text speech_to_text_body
    simp [htr, hex, hread, hpost, *]

theorem claim_C6_witness :
    speech_to_text audioOkEnv (some "talk.mp3") = .ok ("hi there",
      [RemoteCall.transcription "talk.mp3" "audio/mpeg" "whisper-large-v3" "json" [9, 9]]) ∧
    speech_to_text audioNoTextEnv (some "talk.mp3") = .ok ("No text transcribed",
      [RemoteCall.transcription "talk.mp3" "audio/mpeg" "whisper-large-v3" "json" [9, 9]]) ∧
    speech_to_text audioErrEnv (some "talk.mp3") = .ok ("Speech-to-text error: 404",
      [RemoteCall.transcription "talk.mp3" "audio/mpeg" "whisper-large-v3" "json" [9, 9]]) := by
  refine ⟨?_, ?_, ?_⟩
  · have h := (claim_C6_transcription_mapping audioOkEnv "talk.mp3" [9, 9]
      ⟨200, "", .ok (some "hi there")⟩ (by decide) rfl rfl rfl).1 "hi there" rfl rfl
    simpa using h
  · have h := (claim_C6_transcription_mapping audioNoTextEnv "talk.mp3" [9, 9]
      ⟨200, "", .ok none⟩ (by decide) rfl rfl rfl).2.1 rfl rfl
    simpa using h
  · have h := (claim_C6_transcription_mapping audioErrEnv "talk.mp3" [9, 9]
      ⟨404, "Not Found", .error "KeyError"⟩ (by decide) rfl rfl rfl).2.2 (by decide)
    simpa using h

/-- C7: the MIME image subtype embedded in the vision data URI is derived
from the image path's extension lowercased: "jpg" is mapped to "jpeg" and
every other extension passes through unchanged (the hypothesis says that the
lowercased extension contains no further dot, i.e. it really is the
extension). -/
theorem claim_C7_image_format (stem ext : List Char) (b64 : String)
    (h : '.' ∉ ext.map Char.toLower) :
    imageFormat (String.mk (stem ++ '.' :: ext)) =
      (if ext.map Char.toLower = "jpg".toList then "jpeg"
       else String.mk (ext.map Char.toLower)) ∧
    (visionPayload (imageFormat (String.mk (stem ++ '.' :: ext))) b64).content =
      ChatContent.visionParts "Please describe this image in detail. What do you see?"
        ("data:image/" ++ imageFormat (String.mk (stem ++ '.' :: ext)) ++ ";base64," ++ b64) := by
  refine ⟨?_, rfl⟩
  simp only [imageFormat]
  rw [lastExt_append_ext stem ext h]
  by_cases hj : ext.map Char.toLower = "jpg".toList
  · rw [if_pos hj, if_pos ((stringMk_eq_iff _ _).mpr hj)]
  · rw [if_neg hj, if_neg (fun hcontra => hj ((stringMk_eq_iff _ _).mp hcontra))]

theorem claim_C7_witness :
    imageFormat (String.mk ("phOto".toList ++ '.' :: "JPG".toList)) = "jpeg" ∧
    imageFormat (String.mk ("scan".toList ++ '.' :: "PNG".toList)) = "png" := by
  constructor
  · exact ((claim_C7_image_format "phOto".toList "JPG".toList "" (by decide)).1).trans
      (by decide)
  · exact ((claim_C7_image_format "scan".toList "PNG".toList "" (by decide)).1).trans
      (by decide)

/-- C8 as stated is false on the code: the extension of "voice.MP3" is "MP3",
which is none of "mp3", "wav", "ogg", so the claim predicts "audio/MP3"; the
code lowercases the path before mapping and produces "audio/mpeg". -/
theorem claim_C8_counterexample :
    audioMimeOf "voice.MP3" = "audio/mpeg" ∧ audioMimeOf "voice.MP3" ≠ "audio/MP3" := by
  constructor
  · decide
  · decide

/-- C8 (amended): the MIME type attached to the uploaded audio file is
derived from the path's extension lowercased: "mp3" maps to "audio/mpeg",
"wav" to "audio/wav", "ogg" to "audio/ogg", and every other lowercased
extension ext to "audio/<ext>". -/
theorem claim_C8_audio_mime (stem ext : List Char)
    (h : '.' ∉ ext.map Char.toLower) :
    audioMimeOf (String.mk (stem ++ '.' :: ext)) =
      (if ext.map Char.toLower = "mp3".toList then "audio/mpeg"
       else if ext.map Char.toLower = "wav".toList then "audio/wav"
       else if ext.map Char.toLower = "ogg".toList then "audio/ogg"
       else "audio/" ++ String.mk (ext.map Char.toLower)) := by
  unfold audioMimeOf audioMime
  rw [lastExt_append_ext stem ext h]
  by_cases h1 : ext.map Char.toLower = "mp3".toList
  · rw [if_pos ((stringMk_eq_iff _ _).mpr h1), if_pos h1]
  · rw [if_neg (fun hc => h1 ((stringMk_eq_iff _ _).mp hc)), if_neg h1]
    by_cases h2 : ext.map Char.toLower = "wav".toList
    · rw [if_pos ((stringMk_eq_iff _ _).mpr h2), if_pos h2]
    · rw [if_neg (fun hc => h2 ((stringMk_eq_iff _ _).mp hc)), if_neg h2]
      by_cases h3 : ext.map Char.toLower = "ogg".toList
      · rw [if_pos ((stringMk_eq_iff _ _).mpr h3), if_pos h3]
      · rw [if_neg (fun hc => h3 ((stringMk_eq_iff _ _).mp hc)), if_neg h3]

theorem claim_C8_witness :
    audioMimeOf (String.mk ("song".toList ++ '.' :: "OGG".toList)) = "audio/ogg" ∧
    audioMimeOf (String.mk ("clip".toList ++ '.' :: "FLAC".toList)) = "audio/flac" := by
  constructor
  · exact (claim_C8_audio_mime "song".toList "OGG".toList (by decide)).trans (by decide)
  · exact (claim_C8_audio_mime "clip".toList "FLAC".toList (by decide)).trans (by decide)

/-- C9: when both an image path and an audio path are provided, the combined
prompt places the "Image:" fragment strictly before the "Audio:" fragment,
and the "User typed:" fragment, when present, after both; this is the prompt
recorded in the completion call of the returned trace. -/
theorem claim_C9_ordering (env : Env) (t i a : Option String)
    (hi : pyTruthy i = true) (ha : pyTruthy a = true) :
    ∃ cap sp rest resp calls,
      multimodal_chat env t i a = .ok (resp, calls) ∧
      RemoteCall.chat (completionPayload
        (String.intercalate "\n" (("Image: " ++ cap) :: ("Audio: " ++ sp) :: rest) ++
          trailingInstruction) defaultModel) ∈ calls ∧
      (rest = [] ∨ ∃ u, rest = ["User typed: " ++ u]) := by
  obtain ⟨⟨cap, cs1⟩, hcap⟩ := generate_image_caption_isOk env i
  obtain ⟨⟨sp, cs2⟩, hsp⟩ := speech_to_text_isOk env a
  have key : ∀ rest : List String,
      (match t with
       | some s => if s ≠ "" ∧ pyStrip s ≠ "" then ["User typed: " ++ s] else []
       | none => ([] : List String)) = rest →
      ∃ resp calls, multimodal_chat env t i a = .ok (resp, calls) ∧
        RemoteCall.chat (completionPayload
          (String.intercalate "\n" (("Image: " ++ cap) :: ("Audio: " ++ sp) :: rest) ++
            trailingInstruction) defaultModel) ∈ calls := by
    intro rest hrest
    obtain ⟨s, hq⟩ := query_groq_llm_spec env
      (String.intercalate "\n" (("Image: " ++ cap) :: ("Audio: " ++ sp) :: rest) ++
        trailingInstruction) defaultModel
    refine ⟨s, cs1 ++ (cs2 ++ [RemoteCall.chat (completionPayload
      (String.intercalate "\n" (("Image: " ++ cap) :: ("Audio: " ++ sp) :: rest) ++
        trailingInstruction) defaultModel)]), ?_, ?_⟩
    · rw [multimodal_chat_unfold env t i a cap sp cs1 cs2 hcap hsp]
      simp [hi, ha, hrest, hq]
    · simp
  rcases t with _ | u
  · obtain ⟨resp, calls, h1, h2⟩ := key [] rfl
    exact ⟨cap, sp, [], resp, calls, h1, h2, Or.inl rfl⟩
  · by_cases hu : u ≠ "" ∧ pyStrip u ≠ ""
    · obtain ⟨resp, calls, h1, h2⟩ := key ["User typed: " ++ u] (by simp [hu])
      exact ⟨cap, sp, ["User typed: " ++ u], resp, calls, h1, h2, Or.inr ⟨u, rfl⟩⟩
    · obtain ⟨resp, calls, h1, h2⟩ := key [] (by simp [hu])
      exact ⟨cap, sp, [], resp, calls, h1, h2, Or.inl rfl⟩

theorem claim_C9_witness :
    ∃ cap sp rest resp calls,
      multimodal_chat emptyEnv (some "hey") (some "x.png") (some "x.mp3") =
        .ok (resp, calls) ∧
      RemoteCall.chat (completionPayload
        (String.intercalate "\n" (("Image: " ++ cap) :: ("Audio: " ++ sp) :: rest) ++
          trailingInstruction) defaultModel) ∈ calls ∧
      (rest = [] ∨ ∃ u, rest = ["User typed: " ++ u]) :=
  claim_C9_ordering emptyEnv (some "hey") (some "x.png") (some "x.mp3") rfl rfl

end GroqInference
